import Mathlib

/-!
Verification development for the pecha-tool-annotation backend
(work assignment, document state machine, review consensus engine).

The definitions below are a shallow embedding of the Python source under
`backend/`: each SQLAlchemy table becomes a Lean structure, the database a
`DB` record of rows plus fresh-id counters, and each CRUD method / route
controller a pure function threading the `DB` state.  Two points of SQL /
SQLAlchemy semantics are modelled explicitly:

* `database.py` builds sessions with `autoflush=False`, so a query issued
  after `session.delete(obj)` but before `commit()` still sees the row
  `obj`.  Counts taken inside `AnnotationCRUD.delete` and
  `AnnotationCRUD.delete_user_annotations` are therefore computed over the
  table as it was before the pending deletions.
* a SQL comparison `col != value` on a nullable column is not true for
  NULL rows; `sqlNeStr` / `sqlNeNat` encode that, and `col == value` on a
  NULL row is false, which the `Option` equality gives directly.

`models/text.py` in this snapshot lags behind the CRUD layer: the columns
`uploaded_by`, `deleted_at`, `translation` and `annotation_type_id` are
added by the alembic migrations and used throughout `crud/text.py`, so the
`Text` structure includes them.
-/

namespace Pecha

/-- Text status constants from `models/text.py`. -/
def INITIALIZED : String := "initialized"

/-- Status of a document submitted for review. -/
def ANNOTATED : String := "annotated"

/-- Status of a document whose review had no disagreement. -/
def REVIEWED : String := "reviewed"

/-- Status of a document whose review had at least one disagreement. -/
def REVIEWED_NEEDS_REVISION : String := "reviewed_needs_revision"

/-- Bookkeeping status constant (present in the source, set nowhere). -/
def SKIPPED : String := "skipped"

/-- Status of a document claimed by an annotator. -/
def PROGRESS : String := "progress"

/-- A row of the `texts` table. -/
structure Text where
  id : Nat
  title : String
  content : String
  translation : Option String
  source : Option String
  language : String
  status : String
  annotator_id : Option Nat
  reviewer_id : Option Nat
  uploaded_by : Option Nat
  annotation_type_id : Option String
  deleted_at : Option Nat
deriving DecidableEq

/-- A row of the `annotations` table. -/
structure Annotation where
  id : Nat
  text_id : Nat
  annotator_id : Option Nat
  annotation_type : String
  start_position : Int
  end_position : Int
  selected_text : Option String
  label : Option String
  name : Option String
  level : Option String
  meta : Option String
  confidence : Int
deriving DecidableEq

/-- A row of the `annotation_reviews` table. -/
structure AnnotationReview where
  id : Nat
  annotation_id : Nat
  reviewer_id : Nat
  decision : String
  comment : Option String
deriving DecidableEq

/-- A row of the `user_rejected_texts` table (the rejection ledger). -/
structure UserRejectedText where
  id : Nat
  user_id : Nat
  text_id : Nat
deriving DecidableEq

/-- The database: the four tables the engine touches, plus the serial
primary-key counters. -/
structure DB where
  texts : List Text
  annotations : List Annotation
  annotation_reviews : List AnnotationReview
  user_rejected_texts : List UserRejectedText
  next_text_id : Nat
  next_annotation_id : Nat
  next_review_id : Nat
  next_rejection_id : Nat
deriving DecidableEq

/-- The authenticated principal (`current_user`): identity and role string
(`"admin"`, `"user"`, `"annotator"` or `"reviewer"`). -/
structure CurrentUser where
  id : Nat
  role : String
deriving DecidableEq

/-- An HTTPException raised by a controller. -/
structure HTTPError where
  status_code : Nat
  detail : String
deriving DecidableEq

/-- Payload of `schemas.text.TextCreate` as the controllers use it. -/
structure TextCreate where
  title : String
  content : String
  translation : Option String
  source : Option String
  language : String
  uploaded_by : Option Nat
  annotation_type_id : Option String
deriving DecidableEq

/-- Payload of `schemas.annotation.AnnotationCreate`. -/
structure AnnotationCreate where
  text_id : Nat
  annotation_type : String
  start_position : Int
  end_position : Int
  selected_text : Option String
  label : Option String
  name : Option String
  level : Option String
  meta : Option String
  confidence : Int
deriving DecidableEq

/-- Payload of `schemas.annotation.AnnotationUpdate`; `none` stands for a
field the request left unset. -/
structure AnnotationUpdate where
  annotation_type : Option String
  start_position : Option Int
  end_position : Option Int
  selected_text : Option String
  label : Option String
  name : Option String
  level : Option String
  meta : Option String
  confidence : Option Int
deriving DecidableEq

/-- One entry of `schemas.annotation_review.ReviewSubmission.decisions`. -/
structure ReviewDecision where
  annotation_id : Nat
  decision : String
  comment : Option String
deriving DecidableEq

/-- Payload of `schemas.annotation_review.ReviewSubmission`. -/
structure ReviewSubmission where
  text_id : Nat
  decisions : List ReviewDecision
deriving DecidableEq

deriving instance DecidableEq for Except

/-- Python truthiness of an `Optional[int]`: `None` and `0` are falsy. -/
def truthyNat : Option Nat → Bool
  | none => false
  | some n => n != 0

/-- SQL `col != value` on a nullable string column: not satisfied by NULL. -/
def sqlNeStr : Option String → String → Bool
  | none, _ => false
  | some x, s => x != s

/-- SQL `col != value` on a nullable integer column: not satisfied by NULL. -/
def sqlNeNat : Option Nat → Nat → Bool
  | none, _ => false
  | some x, n => x != n

/-- `_not_deleted(db.query(Text)).filter(Text.id == text_id).first()`:
first non-soft-deleted row with the given id. -/
def lookup_text (l : List Text) (text_id : Nat) : Option Text :=
  (l.filter fun t => t.deleted_at.isNone).find? fun t => t.id == text_id

/-- Persisting a mutated `Text` row: the session's identity map holds one
instance per primary key, so committing rewrites the row with that id. -/
def setText (db : DB) (t : Text) : DB :=
  { db with texts := db.texts.map fun x => if x.id == t.id then t else x }

namespace TextCRUD

/-- `TextCRUD.get`. -/
def get (db : DB) (text_id : Nat) : Option Text :=
  lookup_text db.texts text_id

/-- `TextCRUD.get_by_title`. -/
def get_by_title (db : DB) (title : String) : Option Text :=
  (db.texts.filter fun t => t.deleted_at.isNone).find? fun t => t.title == title

/-- `TextCRUD.create`: insert a new row with the default status. -/
def create (db : DB) (obj_in : TextCreate) : Text × DB :=
  let db_obj : Text :=
    { id := db.next_text_id
      title := obj_in.title
      content := obj_in.content
      translation := obj_in.translation
      source := obj_in.source
      language := obj_in.language
      status := INITIALIZED
      annotator_id := none
      reviewer_id := none
      uploaded_by := obj_in.uploaded_by
      annotation_type_id := obj_in.annotation_type_id
      deleted_at := none }
  (db_obj, { db with texts := db.texts ++ [db_obj], next_text_id := db.next_text_id + 1 })

/-- `TextCRUD.update_status`: set the status, and the reviewer only when the
`reviewer_id` argument is truthy (`if reviewer_id:`). -/
def update_status (db : DB) (text_id : Nat) (status : String) (reviewer_id : Option Nat) :
    Option Text × DB :=
  match lookup_text db.texts text_id with
  | none => (none, db)
  | some db_obj =>
    let db_obj :=
      { db_obj with
        status := status
        reviewer_id := if truthyNat reviewer_id then reviewer_id else db_obj.reviewer_id }
    (some db_obj, setText db db_obj)

/-- `TextCRUD.get_work_in_progress`: the text the user currently works on,
scoped by role through the `source` column; any role other than
`"annotator"` or `"user"` (including `None`) gets `None`. -/
def get_work_in_progress (db : DB) (user_id : Nat) (user_role : Option String) : Option Text :=
  if user_role == some "annotator" then
    (db.texts.filter fun t => t.deleted_at.isNone).find? fun t =>
      t.annotator_id == some user_id && t.status == PROGRESS && t.source == some "Bulk Upload"
  else if user_role == some "user" then
    (db.texts.filter fun t => t.deleted_at.isNone).find? fun t =>
      t.annotator_id == some user_id && t.status == PROGRESS && sqlNeStr t.source "Bulk Upload"
  else none

/-- The subquery of text ids the user has rejected. -/
def rejected_text_ids (db : DB) (user_id : Nat) : List Nat :=
  (db.user_rejected_texts.filter fun r => r.user_id == user_id).map fun r => r.text_id

/-- `TextCRUD.get_unassigned_text_for_user`: first `initialized`, unclaimed,
not-rejected text visible to the role. -/
def get_unassigned_text_for_user (db : DB) (user_id : Nat) (user_role : Option String) :
    Option Text :=
  let base := db.texts.filter fun t =>
    t.deleted_at.isNone && t.status == INITIALIZED && t.annotator_id == none &&
      !((rejected_text_ids db user_id).contains t.id)
  let query :=
    if user_role == some "user" then base.filter fun t => t.uploaded_by == some user_id
    else if user_role == some "annotator" then base.filter fun t => t.uploaded_by == none
    else base
  query.head?

/-- `TextCRUD.assign_text_to_user`: set annotator and advance to progress. -/
def assign_text_to_user (db : DB) (text_id : Nat) (user_id : Nat) : Option Text × DB :=
  match lookup_text db.texts text_id with
  | none => (none, db)
  | some text =>
    let text := { text with annotator_id := some user_id, status := PROGRESS }
    (some text, setText db text)

/-- `TextCRUD.start_work`: resume work in progress, else (for non-`user`
roles) claim the first eligible unassigned text. -/
def start_work (db : DB) (user_id : Nat) (user_role : Option String) : Option Text × DB :=
  match get_work_in_progress db user_id user_role with
  | some work_in_progress => (some work_in_progress, db)
  | none =>
    if user_role == some "user" then (none, db)
    else
      match get_unassigned_text_for_user db user_id user_role with
      | some unassigned_text => assign_text_to_user db unassigned_text.id user_id
      | none => (none, db)

/-- The query inside `TextCRUD.cancel_work`: the text, held by this user in
progress status. -/
def cancel_query (db : DB) (user_id : Nat) (text_id : Nat) : Option Text :=
  (db.texts.filter fun t => t.deleted_at.isNone).find? fun t =>
    t.id == text_id && t.annotator_id == some user_id && t.status == PROGRESS

/-- `TextCRUD.cancel_work`: release the claim when the query matches. -/
def cancel_work (db : DB) (user_id : Nat) (text_id : Nat) : Bool × DB :=
  match cancel_query db user_id text_id with
  | none => (false, db)
  | some text =>
    (true, setText db { text with annotator_id := none, status := INITIALIZED })

/-- `TextCRUD.get_texts_for_review`: annotated pool texts, excluding (for a
truthy reviewer id) texts the requesting reviewer annotated. -/
def get_texts_for_review (db : DB) (reviewer_id : Option Nat) : List Text :=
  let query := db.texts.filter fun t =>
    t.deleted_at.isNone && t.status == ANNOTATED && t.uploaded_by == none
  match reviewer_id with
  | some rid => if rid != 0 then query.filter (fun t => sqlNeNat t.annotator_id rid) else query
  | none => query

end TextCRUD

namespace UserRejectedTextCRUD

/-- `UserRejectedTextCRUD.create`: insert the (user, text) pair; on the
unique-constraint violation the session rolls back and returns `None`. -/
def create (db : DB) (user_id : Nat) (text_id : Nat) : Option UserRejectedText × DB :=
  if db.user_rejected_texts.any (fun r => r.user_id == user_id && r.text_id == text_id) then
    (none, db)
  else
    let db_obj : UserRejectedText :=
      { id := db.next_rejection_id, user_id := user_id, text_id := text_id }
    (some db_obj,
      { db with
        user_rejected_texts := db.user_rejected_texts ++ [db_obj]
        next_rejection_id := db.next_rejection_id + 1 })

end UserRejectedTextCRUD

namespace TextCRUD

/-- `TextCRUD.skip_text`.  The source calls
`self.get_work_in_progress(db, user_id)` without forwarding `user_role`,
so the lookup runs with `user_role=None`. -/
def skip_text (db : DB) (user_id : Nat) (user_role : Option String) : Option Text × DB :=
  match get_work_in_progress db user_id none with
  | none => (none, db)
  | some current_text =>
    let db := (UserRejectedTextCRUD.create db user_id current_text.id).2
    let db := setText db { current_text with annotator_id := none, status := INITIALIZED }
    match get_unassigned_text_for_user db user_id user_role with
    | some next_text => assign_text_to_user db next_text.id user_id
    | none => (none, db)

end TextCRUD

/-- Outcome of `AnnotationCRUD.validate_annotation_positions`: either an
error message or the selected text slice. -/
inductive ValidationResult
  | invalid (error : String)
  | valid (selected_text : String)
deriving DecidableEq

/-- Python `s[a:b]` for `0 <= a < b <= len(s)` (the only use site). -/
def sliceStr (s : String) (a b : Int) : String :=
  String.mk ((s.toList.drop a.toNat).take (b - a).toNat)

/-- Python `x or y` on an optional int: `None` and `0` fall back to `y`. -/
def pyOrInt : Option Int → Int → Int
  | none, d => d
  | some v, d => if v != 0 then v else d

/-- Python truthiness of an `Optional[str]`: `None` and `""` are falsy. -/
def truthyStr : Option String → Bool
  | none => false
  | some s => s != ""

namespace AnnotationCRUD

/-- `AnnotationCRUD.create`: insert the span, then promote the text from
`initialized` to `progress`.  The text's own `annotator_id` is not touched
by this method. -/
def create (db : DB) (obj_in : AnnotationCreate) (annotator_id : Nat) : Annotation × DB :=
  let db_obj : Annotation :=
    { id := db.next_annotation_id
      text_id := obj_in.text_id
      annotator_id := some annotator_id
      annotation_type := obj_in.annotation_type
      start_position := obj_in.start_position
      end_position := obj_in.end_position
      selected_text := obj_in.selected_text
      label := obj_in.label
      name := obj_in.name
      level := obj_in.level
      meta := obj_in.meta
      confidence := obj_in.confidence }
  let db1 :=
    { db with
      annotations := db.annotations ++ [db_obj]
      next_annotation_id := db.next_annotation_id + 1 }
  match db1.texts.find? (fun t => t.id == obj_in.text_id) with
  | some text =>
    if text.status == INITIALIZED then (db_obj, setText db1 { text with status := PROGRESS })
    else (db_obj, db1)
  | none => (db_obj, db1)

/-- `AnnotationCRUD.get`. -/
def get (db : DB) (annotation_id : Nat) : Option Annotation :=
  db.annotations.find? fun a => a.id == annotation_id

/-- `AnnotationCRUD.is_annotation_agreed`: some review with decision
`"agree"` exists for the annotation. -/
def is_annotation_agreed (db : DB) (annotation_id : Nat) : Bool :=
  db.annotation_reviews.any fun r => r.annotation_id == annotation_id && r.decision == "agree"

/-- `setattr` loop of `AnnotationCRUD.update`: overwrite each field the
request set. -/
def applyAnnotationUpdate (a : Annotation) (u : AnnotationUpdate) : Annotation :=
  { a with
    annotation_type := u.annotation_type.getD a.annotation_type
    start_position := u.start_position.getD a.start_position
    end_position := u.end_position.getD a.end_position
    selected_text := if u.selected_text.isSome then u.selected_text else a.selected_text
    label := if u.label.isSome then u.label else a.label
    name := if u.name.isSome then u.name else a.name
    level := if u.level.isSome then u.level else a.level
    meta := if u.meta.isSome then u.meta else a.meta
    confidence := u.confidence.getD a.confidence }

/-- `AnnotationCRUD.update`. -/
def update (db : DB) (db_obj : Annotation) (obj_in : AnnotationUpdate) : Annotation × DB :=
  let db_obj := applyAnnotationUpdate db_obj obj_in
  (db_obj,
    { db with annotations := db.annotations.map fun a => if a.id == db_obj.id then db_obj else a })

/-- `AnnotationCRUD.delete`.  The session's `autoflush` is off, so the
`remaining_annotations` count, issued while the delete is still pending,
is taken over the table with the row still present; the demotion branch
below is therefore never entered.  Deleting the row cascades to its
reviews. -/
def delete (db : DB) (annotation_id : Nat) : Option Annotation × DB :=
  match db.annotations.find? (fun a => a.id == annotation_id) with
  | none => (none, db)
  | some obj =>
    let remaining_annotations := (db.annotations.filter fun a => a.text_id == obj.text_id).length
    let db1 :=
      if remaining_annotations == 0 then
        match db.texts.find? (fun t => t.id == obj.text_id) with
        | some text =>
          if text.status == ANNOTATED then setText db { text with status := INITIALIZED } else db
        | none => db
      else db
    (some obj,
      { db1 with
        annotations := db1.annotations.filter fun a => a.id != annotation_id
        annotation_reviews := db1.annotation_reviews.filter fun r =>
          r.annotation_id != annotation_id })

/-- `AnnotationCRUD.delete_user_annotations`.  The deletes are pending when
the count runs (`autoflush` off), so the source subtracts `deleted_count`
itself; the text is reset to `initialized` with its annotator cleared
exactly when nothing remains.  Cascades to the reviews of the deleted
spans. -/
def delete_user_annotations (db : DB) (text_id : Nat) (annotator_id : Nat) : Nat × DB :=
  let user_annotations := db.annotations.filter fun a =>
    a.text_id == text_id && a.annotator_id == some annotator_id
  let deleted_count := user_annotations.length
  let remaining_annotations : Int :=
    ((db.annotations.filter fun a => a.text_id == text_id).length : Int) - (deleted_count : Int)
  let db1 :=
    if remaining_annotations == 0 then
      match db.texts.find? (fun t => t.id == text_id) with
      | some text => setText db { text with status := INITIALIZED, annotator_id := none }
      | none => db
    else db
  (deleted_count,
    { db1 with
      annotations := db1.annotations.filter fun a =>
        !(a.text_id == text_id && a.annotator_id == some annotator_id)
      annotation_reviews := db1.annotation_reviews.filter fun r =>
        !(user_annotations.any fun a => a.id == r.annotation_id) })

/-- `AnnotationCRUD.validate_annotation_positions` (the overlap check in the
source is commented out, and the `exclude_annotation_id` argument feeds
only that check, so it is dropped here). -/
def validate_annotation_positions (db : DB) (text_id : Nat) (start_pos end_pos : Int) :
    ValidationResult :=
  match db.texts.find? (fun t => t.id == text_id) with
  | none => ValidationResult.invalid "Text not found"
  | some text =>
    let text_length : Int := text.content.length
    if start_pos < 0 || end_pos < 0 then
      ValidationResult.invalid "Positions cannot be negative"
    else if start_pos >= text_length then
      ValidationResult.invalid ("Start position (" ++ toString start_pos ++
        ") exceeds text length (" ++ toString text_length ++ ")")
    else if end_pos > text_length then
      ValidationResult.invalid ("End position (" ++ toString end_pos ++
        ") exceeds text length (" ++ toString text_length ++ ")")
    else if start_pos >= end_pos then
      ValidationResult.invalid "Start position must be less than end position"
    else ValidationResult.valid (sliceStr text.content start_pos end_pos)

end AnnotationCRUD

/-- The dict `AnnotationReviewCRUD.get_review_status` returns (pending count
kept as a difference of integers). -/
structure ReviewStatusData where
  text_id : Nat
  total_annotations : Nat
  reviewed_annotations : Nat
  pending_annotations : Int
  is_complete : Bool
deriving DecidableEq

namespace AnnotationReviewCRUD

/-- `AnnotationReviewCRUD.get_by_annotation_and_reviewer`. -/
def get_by_annotation_and_reviewer (db : DB) (annotation_id reviewer_id : Nat) :
    Option AnnotationReview :=
  db.annotation_reviews.find? fun r =>
    r.annotation_id == annotation_id && r.reviewer_id == reviewer_id

/-- `AnnotationReviewCRUD.get_reviews_by_text`: reviews by the reviewer
joined against the text's annotations. -/
def get_reviews_by_text (db : DB) (text_id : Nat) (reviewer_id : Nat) : List AnnotationReview :=
  db.annotation_reviews.filter fun r =>
    r.reviewer_id == reviewer_id &&
      db.annotations.any fun a => a.id == r.annotation_id && a.text_id == text_id

/-- `AnnotationReviewCRUD.create_or_update_review`: upsert keyed on the
(annotation, reviewer) pair; an update overwrites decision and comment. -/
def create_or_update_review (db : DB) (annotation_id reviewer_id : Nat) (decision : String)
    (comment : Option String) : AnnotationReview × DB :=
  match get_by_annotation_and_reviewer db annotation_id reviewer_id with
  | some existing_review =>
    let updated := { existing_review with decision := decision, comment := comment }
    (updated,
      { db with
        annotation_reviews := db.annotation_reviews.map fun r =>
          if r.id == existing_review.id then updated else r })
  | none =>
    let db_obj : AnnotationReview :=
      { id := db.next_review_id
        annotation_id := annotation_id
        reviewer_id := reviewer_id
        decision := decision
        comment := comment }
    (db_obj,
      { db with
        annotation_reviews := db.annotation_reviews ++ [db_obj]
        next_review_id := db.next_review_id + 1 })

/-- `AnnotationReviewCRUD.submit_reviews`: upsert one review per decision,
in order. -/
def submit_reviews (db : DB) (text_id : Nat) (reviewer_id : Nat)
    (decisions : List ReviewDecision) : List AnnotationReview × DB :=
  decisions.foldl
    (fun acc d =>
      let step := create_or_update_review acc.2 d.annotation_id reviewer_id d.decision d.comment
      (acc.1 ++ [step.1], step.2))
    (([], db) : List AnnotationReview × DB)

/-- `AnnotationReviewCRUD.get_review_status`. -/
def get_review_status (db : DB) (text_id reviewer_id : Nat) : ReviewStatusData :=
  let total_annotations := (db.annotations.filter fun a => a.text_id == text_id).length
  let reviewed_annotations := (get_reviews_by_text db text_id reviewer_id).length
  let pending_annotations : Int := (total_annotations : Int) - (reviewed_annotations : Int)
  { text_id := text_id
    total_annotations := total_annotations
    reviewed_annotations := reviewed_annotations
    pending_annotations := pending_annotations
    is_complete := pending_annotations == 0 }

end AnnotationReviewCRUD

/-- The next-text hint of a review submission response. -/
structure NextReviewText where
  id : Nat
  title : String
  annotation_count : Nat
deriving DecidableEq

/-- `schemas.annotation_review.ReviewSubmissionResponse`. -/
structure ReviewSubmissionResult where
  message : String
  text_id : Nat
  total_reviews : Nat
  status : String
  next_review_text : Option NextReviewText
deriving DecidableEq

namespace Texts

/-- `controllers/texts.py create_text`: only `user` and `admin` roles may
create; duplicate titles are rejected; a `user` creator is assigned the
new text immediately. -/
def create_text (db : DB) (current_user : CurrentUser) (text_in : TextCreate) :
    Except HTTPError (Option Text) × DB :=
  if !(current_user.role == "user" || current_user.role == "admin") then
    (Except.error
      { status_code := 403
        detail := "Role '" ++ current_user.role ++ "' is not allowed to create texts" }, db)
  else
    match TextCRUD.get_by_title db text_in.title with
    | some _ =>
      (Except.error
        { status_code := 400
          detail := "Text with title '" ++ text_in.title ++ "' already exists" }, db)
    | none =>
      let text_in := { text_in with uploaded_by := some current_user.id }
      let created := TextCRUD.create db text_in
      if current_user.role == "user" then
        let assigned := TextCRUD.assign_text_to_user created.2 created.1.id current_user.id
        (Except.ok assigned.1, assigned.2)
      else
        (Except.ok (some created.1), created.2)

/-- `controllers/texts.py cancel_work`: 404 when the text is missing;
otherwise the CRUD result is discarded and a success message returned. -/
def cancel_work (db : DB) (current_user : CurrentUser) (text_id : Nat) :
    Except HTTPError String × DB :=
  match TextCRUD.get db text_id with
  | none => (Except.error { status_code := 404, detail := "Text not found" }, db)
  | some _ =>
    let step := TextCRUD.cancel_work db current_user.id text_id
    (Except.ok "Work cancelled successfully", step.2)

/-- `controllers/texts.py revert_work`. -/
def revert_work (db : DB) (current_user : CurrentUser) (text_id : Nat) :
    Except HTTPError String × DB :=
  match TextCRUD.get db text_id with
  | none => (Except.error { status_code := 404, detail := "Text not found" }, db)
  | some text =>
    if text.annotator_id != some current_user.id then
      (Except.error
        { status_code := 403
          detail := "You can only revert work on texts you were assigned to" }, db)
    else if !(text.status == ANNOTATED || text.status == REVIEWED) then
      (Except.error
        { status_code := 400
          detail := "Can only revert completed work. Current status: " ++ text.status }, db)
    else
      let step := AnnotationCRUD.delete_user_annotations db text_id current_user.id
      (Except.ok
        ("Work reverted successfully. Removed " ++ toString step.1 ++ " annotations."), step.2)

end Texts

namespace Annotations

/-- `controllers/annotations.py update_annotation`: not-found, then
ownership (`annotator_id != user and role != "admin"` with Python `None`
inequality), then the endorsement lock, then position revalidation.  The
`or` fallbacks mirror Python truthiness. -/
def update_annotation (db : DB) (current_user : CurrentUser) (annotation_id : Nat)
    (annotation_in : AnnotationUpdate) : Except HTTPError Annotation × DB :=
  match AnnotationCRUD.get db annotation_id with
  | none => (Except.error { status_code := 404, detail := "Annotation not found" }, db)
  | some ann =>
    if ann.annotator_id != some current_user.id && current_user.role != "admin" then
      (Except.error { status_code := 403, detail := "Not enough permissions" }, db)
    else if AnnotationCRUD.is_annotation_agreed db annotation_id then
      (Except.error
        { status_code := 400
          detail := "Cannot modify annotation that has been agreed upon by a reviewer" }, db)
    else if annotation_in.start_position.isSome || annotation_in.end_position.isSome then
      let start_pos := pyOrInt annotation_in.start_position ann.start_position
      let end_pos := pyOrInt annotation_in.end_position ann.end_position
      match AnnotationCRUD.validate_annotation_positions db ann.text_id start_pos end_pos with
      | ValidationResult.invalid e =>
        (Except.error { status_code := 400, detail := e }, db)
      | ValidationResult.valid sel =>
        let annotation_in :=
          if truthyStr annotation_in.selected_text then annotation_in
          else { annotation_in with selected_text := some sel }
        let step := AnnotationCRUD.update db ann annotation_in
        (Except.ok step.1, step.2)
    else
      let step := AnnotationCRUD.update db ann annotation_in
      (Except.ok step.1, step.2)

/-- `controllers/annotations.py delete_annotation`: the ownership guard is
skipped for unowned (system) spans, then the endorsement lock applies. -/
def delete_annotation (db : DB) (current_user : CurrentUser) (annotation_id : Nat) :
    Except HTTPError Unit × DB :=
  match AnnotationCRUD.get db annotation_id with
  | none => (Except.error { status_code := 404, detail := "Annotation not found" }, db)
  | some ann =>
    if truthyNat ann.annotator_id && ann.annotator_id != some current_user.id &&
        current_user.role != "admin" then
      (Except.error { status_code := 403, detail := "Not enough permissions" }, db)
    else if AnnotationCRUD.is_annotation_agreed db annotation_id then
      (Except.error
        { status_code := 400
          detail := "Cannot delete annotation that has been agreed upon by a reviewer" }, db)
    else
      let step := AnnotationCRUD.delete db annotation_id
      (Except.ok (), step.2)

end Annotations

namespace Reviews

/-- `controllers/reviews.py submit_review`: annotated-status gate, the
completeness gate against the total annotation count, upsert of every
decision, status recompute from the disagree count (reviewer recorded),
and the next-review hint.  The 500 branch models the `AttributeError` the
source would raise if the row vanished between the two lookups. -/
def submit_review (db : DB) (current_user : CurrentUser) (review_data : ReviewSubmission) :
    Except HTTPError ReviewSubmissionResult × DB :=
  match TextCRUD.get db review_data.text_id with
  | none => (Except.error { status_code := 404, detail := "Text not found" }, db)
  | some text =>
    if text.status != ANNOTATED then
      (Except.error
        { status_code := 400
          detail := "Text must be in annotated status for review. Current status: " ++
            text.status }, db)
    else
      let review_status := AnnotationReviewCRUD.get_review_status db review_data.text_id
        current_user.id
      if review_data.decisions.length != review_status.total_annotations then
        (Except.error
          { status_code := 400
            detail := "Must review all annotations. Expected " ++
              toString review_status.total_annotations ++ ", got " ++
              toString review_data.decisions.length }, db)
      else
        let step := AnnotationReviewCRUD.submit_reviews db review_data.text_id
          current_user.id review_data.decisions
        let disagreed_count :=
          (review_data.decisions.filter fun d => d.decision == "disagree").length
        let updated :=
          if disagreed_count > 0 then
            TextCRUD.update_status step.2 review_data.text_id REVIEWED_NEEDS_REVISION
              (some current_user.id)
          else
            TextCRUD.update_status step.2 review_data.text_id REVIEWED (some current_user.id)
        match updated.1 with
        | none => (Except.error { status_code := 500, detail := "Internal Server Error" }, updated.2)
        | some updated_text =>
          let next_texts := TextCRUD.get_texts_for_review updated.2 (some current_user.id)
          let next_review_text := next_texts.head?.map fun t =>
            ({ id := t.id
               title := t.title
               annotation_count :=
                 (updated.2.annotations.filter fun a => a.text_id == t.id).length } :
              NextReviewText)
          (Except.ok
            { message := "Review submitted successfully for text '" ++ text.title ++ "'"
              text_id := review_data.text_id
              total_reviews := step.1.length
              status := updated_text.status
              next_review_text := next_review_text }, updated.2)

end Reviews

/-- Status of the text with the given id, as `TextCRUD.get` sees it. -/
def text_status (db : DB) (text_id : Nat) : Option String :=
  (TextCRUD.get db text_id).map fun t => t.status

/-- Annotator reference of the text with the given id. -/
def text_annotator (db : DB) (text_id : Nat) : Option (Option Nat) :=
  (TextCRUD.get db text_id).map fun t => t.annotator_id

/-- Reviewer reference of the text with the given id. -/
def text_reviewer (db : DB) (text_id : Nat) : Option (Option Nat) :=
  (TextCRUD.get db text_id).map fun t => t.reviewer_id

/-- Number of annotations on a text (the review engine's total). -/
def text_ann_count (db : DB) (text_id : Nat) : Nat :=
  (db.annotations.filter fun a => a.text_id == text_id).length

/-- Number of annotations on a text owned by a given user. -/
def user_ann_count (db : DB) (text_id user_id : Nat) : Nat :=
  (db.annotations.filter fun a =>
    a.text_id == text_id && a.annotator_id == some user_id).length

/-- Number of submitted decisions equal to `"disagree"`. -/
def count_disagree (decisions : List ReviewDecision) : Nat :=
  (decisions.filter fun d => d.decision == "disagree").length

/-- Whether the rejection ledger holds the (user, text) pair. -/
def rejected_pair (db : DB) (user_id text_id : Nat) : Bool :=
  db.user_rejected_texts.any fun r => r.user_id == user_id && r.text_id == text_id

/-- An empty database with fresh counters, for the concrete instances. -/
def exBase : DB :=
  { texts := []
    annotations := []
    annotation_reviews := []
    user_rejected_texts := []
    next_text_id := 1
    next_annotation_id := 1
    next_review_id := 1
    next_rejection_id := 1 }

/-- An unclaimed pool document in `initialized` status. -/
def exPoolInit : Text :=
  { id := 1
    title := "Pool text"
    content := "hello world"
    translation := none
    source := some "Bulk Upload"
    language := "en"
    status := INITIALIZED
    annotator_id := none
    reviewer_id := none
    uploaded_by := none
    annotation_type_id := none
    deleted_at := none }

/-- The pool document, submitted by annotator 1. -/
def exAnnotated : Text := { exPoolInit with status := ANNOTATED, annotator_id := some 1 }

/-- The pool document, submitted by annotator 2. -/
def exAnnotated2 : Text := { exPoolInit with status := ANNOTATED, annotator_id := some 2 }

/-- A span on document 1 owned by annotator 1. -/
def exSpan : Annotation :=
  { id := 1
    text_id := 1
    annotator_id := some 1
    annotation_type := "entity"
    start_position := 0
    end_position := 5
    selected_text := some "hello"
    label := none
    name := none
    level := none
    meta := none
    confidence := 100 }

/-- The same span owned by annotator 2. -/
def exSpan2 : Annotation := { exSpan with annotator_id := some 2 }

/-- A creation payload for a span on document 1. -/
def exAnnIn : AnnotationCreate :=
  { text_id := 1
    annotation_type := "entity"
    start_position := 0
    end_position := 5
    selected_text := none
    label := none
    name := none
    level := none
    meta := none
    confidence := 100 }

/-- An update payload with every field left unset. -/
def exUpdEmpty : AnnotationUpdate :=
  { annotation_type := none
    start_position := none
    end_position := none
    selected_text := none
    label := none
    name := none
    level := none
    meta := none
    confidence := none }

/-- An agree review by reviewer 3 on span 1. -/
def exAgreeReview : AnnotationReview :=
  { id := 1, annotation_id := 1, reviewer_id := 3, decision := "agree", comment := none }

/-- Database holding only the unclaimed `initialized` pool document. -/
def dbInit : DB := { exBase with texts := [exPoolInit], next_text_id := 2 }

/-- Database with an `annotated` document by annotator 2 carrying one span. -/
def dbReview : DB :=
  { exBase with
    texts := [exAnnotated2]
    annotations := [exSpan2]
    next_text_id := 2
    next_annotation_id := 2 }

/-- Database where span 1 (by annotator 1) already has an agree review. -/
def dbLocked : DB :=
  { exBase with
    texts := [exAnnotated]
    annotations := [exSpan]
    annotation_reviews := [exAgreeReview]
    next_text_id := 2
    next_annotation_id := 2
    next_review_id := 2 }

/-- Two unclaimed pool documents, document 1 rejected by user 5. -/
def dbTwoPool : DB :=
  { exBase with
    texts := [exPoolInit, { exPoolInit with id := 2, title := "Pool text B" }]
    user_rejected_texts := [{ id := 1, user_id := 5, text_id := 1 }]
    next_text_id := 3
    next_rejection_id := 2 }

/-- The document `start_work` hands to user 5 in `dbTwoPool`. -/
def exClaimedB : Text :=
  { exPoolInit with id := 2, title := "Pool text B", annotator_id := some 5, status := PROGRESS }

/-- An `annotated` document by annotator 1 with no annotations at all. -/
def dbRevertEmpty : DB := { exBase with texts := [exAnnotated], next_text_id := 2 }

/-- An `annotated` document by annotator 1 carrying exactly their one span. -/
def dbRevertOne : DB :=
  { exBase with
    texts := [exAnnotated]
    annotations := [exSpan]
    next_text_id := 2
    next_annotation_id := 2 }

/-- User 1 acting as an annotator. -/
def exAnnotator1 : CurrentUser := { id := 1, role := "annotator" }

/-- User 3 acting as a reviewer. -/
def exReviewer3 : CurrentUser := { id := 3, role := "reviewer" }

/-- User 9 acting as an ordinary (self-service) user. -/
def exUser9 : CurrentUser := { id := 9, role := "user" }

/-- An empty decision list for document 1 (an incomplete submission). -/
def exMismatchSub : ReviewSubmission := { text_id := 1, decisions := [] }

/-- A complete agree-decision list for document 1. -/
def exAgreeSub : ReviewSubmission :=
  { text_id := 1, decisions := [{ annotation_id := 1, decision := "agree", comment := none }] }

/-- A creation payload for a self-service text. -/
def exTextIn : TextCreate :=
  { title := "Uploaded"
    content := "abc"
    translation := none
    source := none
    language := "en"
    uploaded_by := none
    annotation_type_id := none }

theorem lookup_text_id {l : List Text} {text_id : Nat} {t : Text}
    (h : lookup_text l text_id = some t) : t.id = text_id := by
  have hp := List.find?_some h
  simpa using hp

theorem lookup_text_not_deleted {l : List Text} {text_id : Nat} {t : Text}
    (h : lookup_text l text_id = some t) : t.deleted_at.isNone = true := by
  have hmem := List.mem_of_find?_eq_some h
  exact (List.mem_filter.mp hmem).2

/-- Replacing, in a list, every element matched by `m` with one fixed
element `t'` that survives the filter `d` and satisfies the search
predicate `q`: if the filtered search previously found a replaced element,
it now finds `t'`. -/
theorem find?_filter_map_replace {α : Type} (d q m : α → Bool) (t t' : α) (l : List α)
    (h : (l.filter d).find? q = some t) (hmt : m t = true) (hd : d t' = true)
    (hq : q t' = true) (hmq : ∀ x, m x = true → q x = true) :
    ((l.map fun x => if m x then t' else x).filter d).find? q = some t' := by
  induction l with
  | nil => simp at h
  | cons x xs ih =>
    rw [List.map_cons]
    cases hdx : d x with
    | false =>
      have h' : (xs.filter d).find? q = some t := by
        rw [List.filter_cons_of_neg (by simp [hdx])] at h
        exact h
      cases hmx : m x with
      | true =>
        rw [if_pos rfl, List.filter_cons_of_pos hd, List.find?_cons_of_pos _ hq]
      | false =>
        rw [if_neg (by simp), List.filter_cons_of_neg (by simp [hdx])]
        exact ih h'
    | true =>
      cases hqx : q x with
      | true =>
        have hxt : x = t := by
          rw [List.filter_cons_of_pos hdx, List.find?_cons_of_pos _ hqx] at h
          exact Option.some.inj h
        have hmx : m x = true := hxt ▸ hmt
        rw [if_pos hmx, List.filter_cons_of_pos hd, List.find?_cons_of_pos _ hq]
      | false =>
        have h' : (xs.filter d).find? q = some t := by
          rw [List.filter_cons_of_pos hdx, List.find?_cons_of_neg _ (by simp [hqx])] at h
          exact h
        have hmx : m x = false := by
          cases hmx : m x with
          | false => rfl
          | true => rw [hmq x hmx] at hqx; exact absurd hqx (by simp)
        rw [if_neg (by simp [hmx]), List.filter_cons_of_pos hdx,
          List.find?_cons_of_neg _ (by simp [hqx])]
        exact ih h'

/-- Rewriting a row by id keeps it the first hit of the not-deleted id
lookup, provided the replacement keeps the id and is not soft-deleted. -/
theorem lookup_text_setText {l : List Text} {text_id : Nat} {t : Text} (t' : Text)
    (h : lookup_text l text_id = some t) (hid : t'.id = t.id)
    (hdel : t'.deleted_at.isNone = true) :
    lookup_text (l.map fun x => if x.id == t'.id then t' else x) text_id = some t' := by
  have htid : t.id = text_id := lookup_text_id h
  unfold lookup_text at h ⊢
  exact find?_filter_map_replace (fun x => x.deleted_at.isNone) (fun x => x.id == text_id)
    (fun x => x.id == t'.id) t t' l h (by simp [hid]) hdel (by simp [hid, htid])
    (fun x hx => by
      have hxi : x.id = t'.id := by simpa using hx
      simp [hxi, hid, htid])

/-- Appending a row whose id no existing row carries: the not-deleted id
lookup finds exactly the appended row. -/
theorem lookup_text_append_fresh (l : List Text) (nt : Text)
    (hfresh : ∀ x ∈ l, x.id ≠ nt.id) (hdel : nt.deleted_at.isNone = true) :
    lookup_text (l ++ [nt]) nt.id = some nt := by
  unfold lookup_text
  rw [List.filter_append, List.find?_append]
  have hleft : (l.filter fun t => t.deleted_at.isNone).find? (fun t => t.id == nt.id) = none := by
    rw [List.find?_eq_none]
    intro x hx
    simp only [beq_iff_eq]
    exact hfresh x (List.mem_of_mem_filter hx)
  rw [hleft, Option.none_or]
  simp [hdel]

/-- C1: the spec has `skip(user, role)` record a rejection for the user's
current document, reopen it and re-run selection.  The source's
`skip_text` calls `get_work_in_progress` without forwarding the role, that
lookup returns `None` when the role is `None`, and so every skip call
returns `None` and leaves the database unchanged: no rejection is
recorded and no document is reopened, for any user and role. -/
theorem C1_skip_text_is_a_noop (db : DB) (user_id : Nat) (user_role : Option String) :
    TextCRUD.skip_text db user_id user_role = (none, db) := rfl

/-- C2 counterexample: annotator 7 creates the first annotation on the
`initialized` document 1.  The document is promoted to `progress`, but its
annotator reference stays `None` — the claim's "records that annotator as
the document's annotator" fails at this input. -/
theorem C2_counterexample :
    text_status (AnnotationCRUD.create dbInit exAnnIn 7).2 1 = some PROGRESS ∧
    text_annotator (AnnotationCRUD.create dbInit exAnnIn 7).2 1 = some none ∧
    text_annotator (AnnotationCRUD.create dbInit exAnnIn 7).2 1 ≠ some (some 7) := by
  refine ⟨by decide, by decide, by decide⟩

/-- C2 amended: creating an annotation on a document in `initialized`
status promotes the document to `progress` and records the annotator on
the new annotation row, but leaves every other field of the document —
its annotator reference included — unchanged; no claim call happens. -/
theorem C2_create_promotes_without_claiming (db : DB) (obj_in : AnnotationCreate)
    (annotator_id : Nat) (t : Text)
    (hfind : db.texts.find? (fun x => x.id == obj_in.text_id) = some t)
    (hstat : t.status = INITIALIZED) :
    ((AnnotationCRUD.create db obj_in annotator_id).1).annotator_id = some annotator_id ∧
    ((AnnotationCRUD.create db obj_in annotator_id).2).texts =
      db.texts.map (fun x => if x.id == t.id then { t with status := PROGRESS } else x) ∧
    ({ t with status := PROGRESS } : Text).annotator_id = t.annotator_id ∧
    ((AnnotationCRUD.create db obj_in annotator_id).2).annotations =
      db.annotations ++ [(AnnotationCRUD.create db obj_in annotator_id).1] := by
  refine ⟨?_, ?_, rfl, ?_⟩ <;>
    simp [AnnotationCRUD.create, hfind, hstat, setText]

/-- C2 witness: the amended statement evaluated on `dbInit`. -/
theorem C2_witness :
    dbInit.texts.find? (fun x => x.id == exAnnIn.text_id) = some exPoolInit ∧
    ((AnnotationCRUD.create dbInit exAnnIn 7).1).annotator_id = some 7 ∧
    ((AnnotationCRUD.create dbInit exAnnIn 7).2).texts =
      dbInit.texts.map
        (fun x => if x.id == exPoolInit.id then { exPoolInit with status := PROGRESS } else x) :=
  ⟨by decide, (C2_create_promotes_without_claiming dbInit exAnnIn 7 exPoolInit (by decide)
      (by decide)).1,
    (C2_create_promotes_without_claiming dbInit exAnnIn 7 exPoolInit (by decide)
      (by decide)).2.1⟩

/-- C8: the spec says deleting the last annotation of an `annotated`
document demotes it to `initialized`.  The session's `autoflush` is off
(`database.py`), so the remaining-annotations count inside
`AnnotationCRUD.delete` still sees the pending-deleted row and is never
zero; the demotion branch is dead and `delete` never changes any text row
— at the failing input (`dbRevertOne`, deleting its only annotation) the
document stays `annotated`. -/
theorem C8_delete_never_demotes (db : DB) (annotation_id : Nat) :
    ((AnnotationCRUD.delete db annotation_id).2).texts = db.texts := by
  unfold AnnotationCRUD.delete
  cases hfind : db.annotations.find? (fun a => a.id == annotation_id) with
  | none => simp
  | some obj =>
    have hmem : obj ∈ db.annotations := List.mem_of_find?_eq_some hfind
    have hmemf : obj ∈ db.annotations.filter (fun a => a.text_id == obj.text_id) :=
      List.mem_filter.mpr ⟨hmem, by simp⟩
    have hlen : ((db.annotations.filter fun a => a.text_id == obj.text_id).length == 0) = false := by
      rw [beq_eq_false_iff_ne]
      intro hzero
      rw [List.length_eq_zero] at hzero
      rw [hzero] at hmemf
      exact (List.not_mem_nil obj) hmemf
    simp [hlen]

/-- C9 counterexample: document 1 exists but is `initialized` and
unclaimed, so the acting user holds nothing in progress; the claim
requires a permission or state-conflict error, yet `cancel_work` answers
with the success message and an unchanged database. -/
theorem C9_counterexample :
    Texts.cancel_work dbInit exAnnotator1 1 = (Except.ok "Work cancelled successfully", dbInit) := by
  decide

/-- C9 amended: a missing document gives 404; for an existing document the
controller always returns the success message, discarding the CRUD
result; the CRUD layer mutates (clearing the annotator and resetting to
`initialized`) exactly when the document is held by the acting user in
`progress` status, and otherwise leaves the database unchanged — the
caller is not told the difference. -/
theorem C9_cancel_work_silent_on_failure (db : DB) (current_user : CurrentUser)
    (text_id : Nat) :
    (TextCRUD.get db text_id = none →
      Texts.cancel_work db current_user text_id =
        (Except.error { status_code := 404, detail := "Text not found" }, db)) ∧
    (∀ text, TextCRUD.get db text_id = some text →
      Texts.cancel_work db current_user text_id =
        (Except.ok "Work cancelled successfully",
          (TextCRUD.cancel_work db current_user.id text_id).2)) ∧
    (TextCRUD.cancel_query db current_user.id text_id = none →
      (TextCRUD.cancel_work db current_user.id text_id).2 = db) ∧
    (∀ t, TextCRUD.cancel_query db current_user.id text_id = some t →
      (TextCRUD.cancel_work db current_user.id text_id).2 =
        setText db { t with annotator_id := none, status := INITIALIZED }) := by
  refine ⟨fun hnone => ?_, fun text hsome => ?_, fun hq => ?_, fun t hq => ?_⟩
  · simp [Texts.cancel_work, hnone]
  · simp [Texts.cancel_work, hsome]
  · simp [TextCRUD.cancel_work, hq]
  · simp [TextCRUD.cancel_work, hq]

/-- C5: once an agree review exists for an annotation, both an update and a
delete of it by its owner (or an administrator) fail with the conflict
error and the database — the annotation and its reviews included — is
unchanged. -/
theorem C5_endorsement_lock (db : DB) (current_user : CurrentUser) (annotation_id : Nat)
    (ann : Annotation)
    (hget : AnnotationCRUD.get db annotation_id = some ann)
    (hagree : AnnotationCRUD.is_annotation_agreed db annotation_id = true)
    (hperm : ann.annotator_id = some current_user.id ∨ current_user.role = "admin") :
    (∀ annotation_in, Annotations.update_annotation db current_user annotation_id
        annotation_in =
      (Except.error
        { status_code := 400
          detail := "Cannot modify annotation that has been agreed upon by a reviewer" },
        db)) ∧
    Annotations.delete_annotation db current_user annotation_id =
      (Except.error
        { status_code := 400
          detail := "Cannot delete annotation that has been agreed upon by a reviewer" },
        db) := by
  constructor
  · intro annotation_in
    cases hperm with
    | inl h => simp [Annotations.update_annotation, hget, hagree, h]
    | inr h => simp [Annotations.update_annotation, hget, hagree, h]
  · cases hperm with
    | inl h => simp [Annotations.delete_annotation, hget, hagree, h]
    | inr h => simp [Annotations.delete_annotation, hget, hagree, h]

/-- C5 witness: the lock evaluated on `dbLocked`, where span 1 (owned by
annotator 1) carries an agree review. -/
theorem C5_witness :
    AnnotationCRUD.get dbLocked 1 = some exSpan ∧
    AnnotationCRUD.is_annotation_agreed dbLocked 1 = true ∧
    Annotations.update_annotation dbLocked exAnnotator1 1 exUpdEmpty =
      (Except.error
        { status_code := 400
          detail := "Cannot modify annotation that has been agreed upon by a reviewer" },
        dbLocked) ∧
    Annotations.delete_annotation dbLocked exAnnotator1 1 =
      (Except.error
        { status_code := 400
          detail := "Cannot delete annotation that has been agreed upon by a reviewer" },
        dbLocked) :=
  ⟨by decide, by decide,
    (C5_endorsement_lock dbLocked exAnnotator1 1 exSpan (by decide) (by decide)
      (Or.inl (by decide))).1 exUpdEmpty,
    (C5_endorsement_lock dbLocked exAnnotator1 1 exSpan (by decide) (by decide)
      (Or.inl (by decide))).2⟩

/-- C3: a review submission for an existing `annotated` document whose
decision list length differs from the document's total annotation count
fails with the completeness validation error, and the database — reviews,
status and reviewer included — is unchanged. -/
theorem C3_review_completeness_gate (db : DB) (current_user : CurrentUser)
    (review_data : ReviewSubmission) (text : Text)
    (hget : TextCRUD.get db review_data.text_id = some text)
    (hstat : text.status = ANNOTATED)
    (hmismatch : review_data.decisions.length ≠ text_ann_count db review_data.text_id) :
    Reviews.submit_review db current_user review_data =
      (Except.error
        { status_code := 400
          detail := "Must review all annotations. Expected " ++
          toString (text_ann_count db review_data.text_id) ++ ", got " ++
          toString review_data.decisions.length }, db) := by
  have hcond : (review_data.decisions.length !=
      (AnnotationReviewCRUD.get_review_status db review_data.text_id
        current_user.id).total_annotations) = true := by
    simp [AnnotationReviewCRUD.get_review_status]
    simpa [text_ann_count] using hmismatch
  simp [Reviews.submit_review, hget, hstat, hcond, AnnotationReviewCRUD.get_review_status,
    text_ann_count]
  intro h
  exact absurd h (by simpa [text_ann_count] using hmismatch)

/-- C3 witness: the gate evaluated on `dbReview` with an empty decision
list against its one annotation. -/
theorem C3_witness :
    TextCRUD.get dbReview exMismatchSub.text_id = some exAnnotated2 ∧
    exMismatchSub.decisions.length ≠ text_ann_count dbReview exMismatchSub.text_id ∧
    Reviews.submit_review dbReview exReviewer3 exMismatchSub =
      (Except.error
        { status_code := 400
          detail := "Must review all annotations. Expected " ++
          toString (text_ann_count dbReview exMismatchSub.text_id) ++ ", got " ++
          toString exMismatchSub.decisions.length }, dbReview) :=
  ⟨by decide, by decide,
    C3_review_completeness_gate dbReview exReviewer3 exMismatchSub exAnnotated2 (by decide)
      (by decide) (by decide)⟩

/-- C6: while a rejection (user, document) is in the ledger, the selection
step never returns that document to that user, and a `start_work` call
that performs a new assignment (no work in progress) never hands them that
document. -/
theorem C6_rejection_monotonicity (db : DB) (user_id : Nat) (user_role : Option String)
    (text_id : Nat)
    (hrej : rejected_pair db user_id text_id = true)
    (hwip : TextCRUD.get_work_in_progress db user_id user_role = none) :
    (∀ t, TextCRUD.get_unassigned_text_for_user db user_id user_role = some t →
      t.id ≠ text_id) ∧
    (∀ t, (TextCRUD.start_work db user_id user_role).1 = some t → t.id ≠ text_id) := by
  have hmem : text_id ∈ TextCRUD.rejected_text_ids db user_id := by
    obtain ⟨r, hr, hpred⟩ := List.any_eq_true.mp hrej
    obtain ⟨hu, ht⟩ : r.user_id = user_id ∧ r.text_id = text_id := by simpa using hpred
    exact List.mem_map.mpr ⟨r, List.mem_filter.mpr ⟨hr, by simp [hu]⟩, ht⟩
  have hsel : ∀ t, TextCRUD.get_unassigned_text_for_user db user_id user_role = some t →
      t.id ≠ text_id := by
    intro t ht heq
    simp only [TextCRUD.get_unassigned_text_for_user] at ht
    have htmem : t ∈ db.texts.filter (fun x =>
        x.deleted_at.isNone && x.status == INITIALIZED && x.annotator_id == none &&
          !((TextCRUD.rejected_text_ids db user_id).contains x.id)) := by
      by_cases h1 : (user_role == some "user") = true
      · rw [if_pos h1] at ht
        exact List.mem_of_mem_filter (List.mem_of_mem_head? ht)
      · rw [if_neg h1] at ht
        by_cases h2 : (user_role == some "annotator") = true
        · rw [if_pos h2] at ht
          exact List.mem_of_mem_filter (List.mem_of_mem_head? ht)
        · rw [if_neg h2] at ht
          exact List.mem_of_mem_head? ht
    have hp := (List.mem_filter.mp htmem).2
    simp only [Bool.and_eq_true, Bool.not_eq_true'] at hp
    have hc := hp.2
    rw [heq] at hc
    have hc' : (TextCRUD.rejected_text_ids db user_id).contains text_id = true :=
      List.contains_iff_exists_mem_beq.mpr ⟨text_id, hmem, by simp⟩
    rw [hc'] at hc
    cases hc
  refine ⟨hsel, ?_⟩
  intro t ht heq
  unfold TextCRUD.start_work at ht
  simp only [hwip] at ht
  by_cases h1 : (user_role == some "user") = true
  · rw [if_pos h1] at ht
    simp at ht
  · rw [if_neg h1] at ht
    cases hu : TextCRUD.get_unassigned_text_for_user db user_id user_role with
    | none =>
      simp only [hu] at ht
      simp at ht
    | some u =>
      simp only [hu] at ht
      unfold TextCRUD.assign_text_to_user at ht
      cases hx : lookup_text db.texts u.id with
      | none =>
        simp only [hx] at ht
        simp at ht
      | some x =>
        simp only [hx] at ht
        simp at ht
        have htid : t.id = u.id := by
          rw [← ht]
          show x.id = u.id
          exact lookup_text_id hx
        exact hsel u hu (by rw [← htid]; exact heq)

/-- C6 witness: in `dbTwoPool` user 5 has rejected document 1; `start_work`
claims document 2 instead. -/
theorem C6_witness :
    rejected_pair dbTwoPool 5 1 = true ∧
    TextCRUD.get_work_in_progress dbTwoPool 5 (some "annotator") = none ∧
    (TextCRUD.start_work dbTwoPool 5 (some "annotator")).1 = some exClaimedB ∧
    exClaimedB.id ≠ 1 :=
  ⟨by decide, by decide, by decide,
    (C6_rejection_monotonicity dbTwoPool 5 (some "annotator") 1 (by decide) (by decide)).2
      exClaimedB (by decide)⟩

/-- C7 counterexample: in `dbRevertEmpty` annotator 1 owns zero annotations
on their `annotated` document, so the claim requires `revert_work` to
fail; instead it succeeds with "Removed 0 annotations." and even resets
the document to `initialized` with the annotator cleared. -/
theorem C7_counterexample :
    user_ann_count dbRevertEmpty 1 1 = 0 ∧
    (Texts.revert_work dbRevertEmpty exAnnotator1 1).1 =
      Except.ok "Work reverted successfully. Removed 0 annotations." ∧
    text_status (Texts.revert_work dbRevertEmpty exAnnotator1 1).2 1 = some INITIALIZED ∧
    text_annotator (Texts.revert_work dbRevertEmpty exAnnotator1 1).2 1 = some none := by
  decide

/-- C7 amended: `revert_work` by someone other than the recorded annotator
fails with a permission error, and on a status other than
`annotated`/`reviewed` with a state error, both without mutation.  For
the recorded annotator on an `annotated`/`reviewed` document it always
succeeds — even with zero owned annotations — deleting exactly the
actor's annotations; the document is reset to `initialized` with the
annotator cleared precisely when no annotations at all would remain,
otherwise the text rows are untouched. -/
theorem C7_revert_work_behaviour (db : DB) (current_user : CurrentUser) (text_id : Nat)
    (text : Text)
    (hget : TextCRUD.get db text_id = some text) :
    (text.annotator_id ≠ some current_user.id →
      Texts.revert_work db current_user text_id =
        (Except.error
          { status_code := 403
            detail := "You can only revert work on texts you were assigned to" }, db)) ∧
    (text.annotator_id = some current_user.id →
      text.status ≠ ANNOTATED → text.status ≠ REVIEWED →
      Texts.revert_work db current_user text_id =
        (Except.error
          { status_code := 400
            detail := "Can only revert completed work. Current status: " ++ text.status },
          db)) ∧
    (text.annotator_id = some current_user.id →
      (text.status = ANNOTATED ∨ text.status = REVIEWED) →
      (Texts.revert_work db current_user text_id).1 =
        Except.ok ("Work reverted successfully. Removed " ++
          toString (user_ann_count db text_id current_user.id) ++ " annotations.") ∧
      ((Texts.revert_work db current_user text_id).2).annotations =
        db.annotations.filter (fun a =>
          !(a.text_id == text_id && a.annotator_id == some current_user.id)) ∧
      (text_ann_count db text_id = user_ann_count db text_id current_user.id →
        db.texts.find? (fun x => x.id == text_id) = some text →
        text_status (Texts.revert_work db current_user text_id).2 text_id =
          some INITIALIZED ∧
        text_annotator (Texts.revert_work db current_user text_id).2 text_id = some none) ∧
      (text_ann_count db text_id ≠ user_ann_count db text_id current_user.id →
        ((Texts.revert_work db current_user text_id).2).texts = db.texts)) := by
  refine ⟨fun hne => ?_, fun ha h1 h2 => ?_, fun ha hs => ?_⟩
  · simp [Texts.revert_work, hget, hne]
  · simp [Texts.revert_work, hget, ha, h1, h2]
  · have hful : Texts.revert_work db current_user text_id =
        (Except.ok ("Work reverted successfully. Removed " ++
          toString (AnnotationCRUD.delete_user_annotations db text_id current_user.id).1 ++
          " annotations."),
         (AnnotationCRUD.delete_user_annotations db text_id current_user.id).2) := by
      cases hs with
      | inl h => simp [Texts.revert_work, hget, ha, h]
      | inr h => simp [Texts.revert_work, hget, ha, h]
    have hcount : (AnnotationCRUD.delete_user_annotations db text_id current_user.id).1 =
        user_ann_count db text_id current_user.id := rfl
    refine ⟨?_, ?_, fun hk hfind => ?_, fun hk => ?_⟩
    · rw [hful, hcount]
    · rw [hful]
      unfold AnnotationCRUD.delete_user_annotations
      dsimp only
      split
      · split <;> rfl
      · rfl
    · have hcond : ((((db.annotations.filter fun a => a.text_id == text_id).length : Int) -
          (((db.annotations.filter fun a =>
            a.text_id == text_id && a.annotator_id == some current_user.id).length : Int))
              == 0) = true) := by
        have hk' : (db.annotations.filter fun a => a.text_id == text_id).length =
            (db.annotations.filter fun a =>
              a.text_id == text_id && a.annotator_id == some current_user.id).length := hk
        rw [hk']
        simp
      have htexts : ((AnnotationCRUD.delete_user_annotations db text_id
          current_user.id).2).texts =
          (setText db { text with status := INITIALIZED, annotator_id := none }).texts := by
        unfold AnnotationCRUD.delete_user_annotations
        dsimp only
        rw [if_pos hcond, hfind]
      have hget' : lookup_text db.texts text_id = some text := hget
      have hdel' : ({ text with status := INITIALIZED, annotator_id := none } :
          Text).deleted_at.isNone = true := by
        show text.deleted_at.isNone = true
        exact lookup_text_not_deleted hget'
      have hlook : lookup_text ((AnnotationCRUD.delete_user_annotations db text_id
          current_user.id).2).texts text_id =
          some { text with status := INITIALIZED, annotator_id := none } := by
        rw [htexts]
        exact lookup_text_setText _ hget' rfl hdel'
      rw [hful]
      constructor
      · simp [text_status, TextCRUD.get, hlook]
      · simp [text_annotator, TextCRUD.get, hlook]
    · have hkk : (db.annotations.filter fun a => a.text_id == text_id).length ≠
          (db.annotations.filter fun a =>
            a.text_id == text_id && a.annotator_id == some current_user.id).length := hk
      have hcond : ((((db.annotations.filter fun a => a.text_id == text_id).length : Int) -
          (((db.annotations.filter fun a =>
            a.text_id == text_id && a.annotator_id == some current_user.id).length : Int))
              == 0) = false) := by
        rw [beq_eq_false_iff_ne]
        rw [sub_ne_zero]
        exact_mod_cast hkk
      rw [hful]
      unfold AnnotationCRUD.delete_user_annotations
      dsimp only
      rw [if_neg (by simp [hcond])]

/-- C7 witness: in `dbRevertOne` annotator 1 reverts their `annotated`
document carrying exactly their one annotation: the call succeeds, and the
document is reset with its annotator cleared. -/
theorem C7_witness :
    TextCRUD.get dbRevertOne 1 = some exAnnotated ∧
    (Texts.revert_work dbRevertOne exAnnotator1 1).1 =
      Except.ok ("Work reverted successfully. Removed " ++
        toString (user_ann_count dbRevertOne 1 1) ++ " annotations.") ∧
    text_status (Texts.revert_work dbRevertOne exAnnotator1 1).2 1 = some INITIALIZED ∧
    text_annotator (Texts.revert_work dbRevertOne exAnnotator1 1).2 1 = some none :=
  ⟨by decide,
    ((C7_revert_work_behaviour dbRevertOne exAnnotator1 1 exAnnotated (by decide)).2.2
      (by decide) (Or.inl (by decide))).1,
    (((C7_revert_work_behaviour dbRevertOne exAnnotator1 1 exAnnotated (by decide)).2.2
      (by decide) (Or.inl (by decide))).2.2.1 (by decide) (by decide)).1,
    (((C7_revert_work_behaviour dbRevertOne exAnnotator1 1 exAnnotated (by decide)).2.2
      (by decide) (Or.inl (by decide))).2.2.1 (by decide) (by decide)).2⟩

/-- C10: a text created through `create_text` by a principal with role
`user` (fresh title, counters coherent) is immediately self-assigned: the
returned row carries the creator as annotator, status `progress` and the
creator as uploader, and the stored row agrees — the text never sits in
the shared pool as `initialized`. -/
theorem C10_user_created_text_self_assigned (db : DB) (current_user : CurrentUser)
    (text_in : TextCreate)
    (hrole : current_user.role = "user")
    (htitle : TextCRUD.get_by_title db text_in.title = none)
    (hfresh : ∀ t ∈ db.texts, t.id < db.next_text_id) :
    ∃ t, (Texts.create_text db current_user text_in).1 = Except.ok (some t) ∧
      t.annotator_id = some current_user.id ∧ t.status = PROGRESS ∧
      t.uploaded_by = some current_user.id ∧ t.id = db.next_text_id ∧
      text_status (Texts.create_text db current_user text_in).2 t.id = some PROGRESS ∧
      text_annotator (Texts.create_text db current_user text_in).2 t.id =
        some (some current_user.id) := by
  have hfresh' : ∀ x ∈ db.texts, x.id ≠ db.next_text_id :=
    fun x hx => Nat.ne_of_lt (hfresh x hx)
  have hlook : lookup_text (db.texts ++
      [{ id := db.next_text_id
         title := text_in.title
         content := text_in.content
         translation := text_in.translation
         source := text_in.source
         language := text_in.language
         status := INITIALIZED
         annotator_id := none
         reviewer_id := none
         uploaded_by := some current_user.id
         annotation_type_id := text_in.annotation_type_id
         deleted_at := none }]) db.next_text_id =
      some
        { id := db.next_text_id
          title := text_in.title
          content := text_in.content
          translation := text_in.translation
          source := text_in.source
          language := text_in.language
          status := INITIALIZED
          annotator_id := none
          reviewer_id := none
          uploaded_by := some current_user.id
          annotation_type_id := text_in.annotation_type_id
          deleted_at := none } :=
    lookup_text_append_fresh db.texts _ (fun x hx => hfresh' x hx) rfl
  have hrun : Texts.create_text db current_user text_in =
      (Except.ok (some
        { id := db.next_text_id
          title := text_in.title
          content := text_in.content
          translation := text_in.translation
          source := text_in.source
          language := text_in.language
          status := PROGRESS
          annotator_id := some current_user.id
          reviewer_id := none
          uploaded_by := some current_user.id
          annotation_type_id := text_in.annotation_type_id
          deleted_at := none }),
        setText
          { db with
            texts := db.texts ++
              [{ id := db.next_text_id
                 title := text_in.title
                 content := text_in.content
                 translation := text_in.translation
                 source := text_in.source
                 language := text_in.language
                 status := INITIALIZED
                 annotator_id := none
                 reviewer_id := none
                 uploaded_by := some current_user.id
                 annotation_type_id := text_in.annotation_type_id
                 deleted_at := none }]
            next_text_id := db.next_text_id + 1 }
          { id := db.next_text_id
            title := text_in.title
            content := text_in.content
            translation := text_in.translation
            source := text_in.source
            language := text_in.language
            status := PROGRESS
            annotator_id := some current_user.id
            reviewer_id := none
            uploaded_by := some current_user.id
            annotation_type_id := text_in.annotation_type_id
            deleted_at := none }) := by
    simp only [Texts.create_text, hrole, htitle]
    dsimp only [TextCRUD.create, TextCRUD.assign_text_to_user]
    simp only [hlook]
    simp
  have hlook2 := lookup_text_setText
    ({ id := db.next_text_id
       title := text_in.title
       content := text_in.content
       translation := text_in.translation
       source := text_in.source
       language := text_in.language
       status := PROGRESS
       annotator_id := some current_user.id
       reviewer_id := none
       uploaded_by := some current_user.id
       annotation_type_id := text_in.annotation_type_id
       deleted_at := none } : Text) hlook rfl rfl
  refine ⟨_, by rw [hrun], rfl, rfl, rfl, rfl, ?_, ?_⟩
  · rw [hrun]
    show text_status _ db.next_text_id = some PROGRESS
    simp only [text_status, TextCRUD.get, setText]
    rw [hlook2]
    rfl
  · rw [hrun]
    show text_annotator _ db.next_text_id = some (some current_user.id)
    simp only [text_annotator, TextCRUD.get, setText]
    rw [hlook2]
    rfl

/-- C10 witness: user 9 creating `exTextIn` in `dbInit`. -/
theorem C10_witness :
    TextCRUD.get_by_title dbInit exTextIn.title = none ∧
    (∃ t, (Texts.create_text dbInit exUser9 exTextIn).1 = Except.ok (some t) ∧
      t.annotator_id = some exUser9.id ∧ t.status = PROGRESS ∧
      t.uploaded_by = some exUser9.id ∧ t.id = dbInit.next_text_id ∧
      text_status (Texts.create_text dbInit exUser9 exTextIn).2 t.id = some PROGRESS ∧
      text_annotator (Texts.create_text dbInit exUser9 exTextIn).2 t.id =
        some (some exUser9.id)) :=
  ⟨by decide,
    C10_user_created_text_self_assigned dbInit exUser9 exTextIn (by decide) (by decide)
      (by decide)⟩

theorem create_or_update_review_texts (db : DB) (annotation_id reviewer_id : Nat)
    (decision : String) (comment : Option String) :
    ((AnnotationReviewCRUD.create_or_update_review db annotation_id reviewer_id decision
      comment).2).texts = db.texts := by
  unfold AnnotationReviewCRUD.create_or_update_review
  cases AnnotationReviewCRUD.get_by_annotation_and_reviewer db annotation_id reviewer_id <;> rfl

theorem submit_reviews_go_texts (reviewer_id : Nat) (decisions : List ReviewDecision)
    (acc : List AnnotationReview × DB) :
    ((decisions.foldl
      (fun acc d =>
        let step := AnnotationReviewCRUD.create_or_update_review acc.2 d.annotation_id
          reviewer_id d.decision d.comment
        (acc.1 ++ [step.1], step.2))
      acc).2).texts = acc.2.texts := by
  induction decisions generalizing acc with
  | nil => rfl
  | cons d ds ih =>
    rw [List.foldl_cons]
    exact (ih _).trans (create_or_update_review_texts _ _ _ _ _)

/-- `submit_reviews` writes only review rows: the text table is untouched. -/
theorem submit_reviews_texts (db : DB) (text_id reviewer_id : Nat)
    (decisions : List ReviewDecision) :
    ((AnnotationReviewCRUD.submit_reviews db text_id reviewer_id decisions).2).texts =
      db.texts := by
  unfold AnnotationReviewCRUD.submit_reviews
  exact submit_reviews_go_texts reviewer_id decisions ([], db)

/-- C4: a complete review submission on an `annotated` document succeeds
and recomputes: the resulting status (on the outcome and on the stored
document) is `reviewed` exactly when no submitted decision is
`disagree`, else `reviewed_needs_revision`, and the requesting reviewer is
recorded on the document. -/
theorem C4_review_status_recompute (db : DB) (current_user : CurrentUser)
    (review_data : ReviewSubmission) (text : Text)
    (hget : TextCRUD.get db review_data.text_id = some text)
    (hstat : text.status = ANNOTATED)
    (hlen : review_data.decisions.length = text_ann_count db review_data.text_id)
    (hid : current_user.id ≠ 0) :
    (∃ res, (Reviews.submit_review db current_user review_data).1 = Except.ok res ∧
      res.status = (if count_disagree review_data.decisions = 0 then REVIEWED
        else REVIEWED_NEEDS_REVISION)) ∧
    text_status (Reviews.submit_review db current_user review_data).2 review_data.text_id =
      some (if count_disagree review_data.decisions = 0 then REVIEWED
        else REVIEWED_NEEDS_REVISION) ∧
    text_reviewer (Reviews.submit_review db current_user review_data).2 review_data.text_id =
      some (some current_user.id) := by
  have htexts := submit_reviews_texts db review_data.text_id current_user.id
    review_data.decisions
  have hget1 : lookup_text ((AnnotationReviewCRUD.submit_reviews db review_data.text_id
      current_user.id review_data.decisions).2).texts review_data.text_id = some text := by
    rw [htexts]
    exact hget
  have hupd : ∀ S : String,
      TextCRUD.update_status (AnnotationReviewCRUD.submit_reviews db review_data.text_id
        current_user.id review_data.decisions).2 review_data.text_id S
        (some current_user.id) =
      (some { text with status := S, reviewer_id := some current_user.id },
        setText (AnnotationReviewCRUD.submit_reviews db review_data.text_id
          current_user.id review_data.decisions).2
          { text with status := S, reviewer_id := some current_user.id }) := by
    intro S
    unfold TextCRUD.update_status
    rw [hget1]
    simp [truthyNat, hid]
  have hdel2 : ∀ S : String,
      ({ text with status := S, reviewer_id := some current_user.id } :
        Text).deleted_at.isNone = true := by
    intro S
    show text.deleted_at.isNone = true
    exact lookup_text_not_deleted hget
  have hlookS : ∀ S : String,
      lookup_text ((setText (AnnotationReviewCRUD.submit_reviews db review_data.text_id
        current_user.id review_data.decisions).2
        { text with status := S, reviewer_id := some current_user.id }).texts)
        review_data.text_id =
      some { text with status := S, reviewer_id := some current_user.id } := by
    intro S
    exact lookup_text_setText _ hget1 rfl (hdel2 S)
  have hstatb : ¬ ((text.status != ANNOTATED) = true) := by simp [hstat]
  have hlenb : ¬ ((review_data.decisions.length !=
      (AnnotationReviewCRUD.get_review_status db review_data.text_id
        current_user.id).total_annotations) = true) := by
    have hlen' : review_data.decisions.length =
        (AnnotationReviewCRUD.get_review_status db review_data.text_id
          current_user.id).total_annotations := hlen
    simp [hlen']
  simp only [Reviews.submit_review, hget]
  rw [if_neg hstatb, if_neg hlenb]
  by_cases hd : count_disagree review_data.decisions = 0
  · have hdlen : (review_data.decisions.filter fun d => d.decision == "disagree").length = 0 :=
      hd
    rw [if_neg (by simp [hdlen]), hupd REVIEWED]
    dsimp only
    refine ⟨⟨_, rfl, ?_⟩, ?_, ?_⟩
    · rw [if_pos hd]
    · simp only [text_status, TextCRUD.get]
      rw [hlookS REVIEWED]
      rw [if_pos hd]
      rfl
    · simp only [text_reviewer, TextCRUD.get]
      rw [hlookS REVIEWED]
      rfl
  · have hpos : 0 < (review_data.decisions.filter fun d => d.decision == "disagree").length :=
      Nat.pos_of_ne_zero hd
    rw [if_pos hpos, hupd REVIEWED_NEEDS_REVISION]
    dsimp only
    refine ⟨⟨_, rfl, ?_⟩, ?_, ?_⟩
    · rw [if_neg hd]
    · simp only [text_status, TextCRUD.get]
      rw [hlookS REVIEWED_NEEDS_REVISION]
      rw [if_neg hd]
      rfl
    · simp only [text_reviewer, TextCRUD.get]
      rw [hlookS REVIEWED_NEEDS_REVISION]
      rfl

/-- C4 witness: the one-annotation document of `dbReview`, reviewed with a
single agree decision by reviewer 3, ends `reviewed` with reviewer 3
recorded. -/
theorem C4_witness :
    TextCRUD.get dbReview exAgreeSub.text_id = some exAnnotated2 ∧
    exAgreeSub.decisions.length = text_ann_count dbReview exAgreeSub.text_id ∧
    (∃ res, (Reviews.submit_review dbReview exReviewer3 exAgreeSub).1 = Except.ok res ∧
      res.status = (if count_disagree exAgreeSub.decisions = 0 then REVIEWED
        else REVIEWED_NEEDS_REVISION)) ∧
    text_status (Reviews.submit_review dbReview exReviewer3 exAgreeSub).2
      exAgreeSub.text_id =
      some (if count_disagree exAgreeSub.decisions = 0 then REVIEWED
        else REVIEWED_NEEDS_REVISION) ∧
    text_reviewer (Reviews.submit_review dbReview exReviewer3 exAgreeSub).2
      exAgreeSub.text_id = some (some exReviewer3.id) := by
  have h := C4_review_status_recompute dbReview exReviewer3 exAgreeSub exAnnotated2
    (by decide) (by decide) (by decide) (by decide)
  exact ⟨by decide, by decide, h.1, h.2.1, h.2.2⟩

end Pecha
